import Mathlib

/-
Verification of the LexiAI vocabulary assistant (src/app.py).

The development shallowly embeds the stateful parts of the program:
the SQLite `memory` table becomes a list of rows threaded through the
operations; SQLite's `RANDOM()` ordering becomes an explicit permutation
parameter; the two language-model round trips of a chat turn become an
opaque oracle record; Python exceptions raised while a tool executes
become `Except` values supplied per tool call.
-/

set_option maxHeartbeats 1000000

namespace LexiAI

/-- One row of the `memory` table: `kata` (the word), `arti` (the meaning)
and `inserted_at`, the `datetime('now')` TEXT default.  The timestamp is
modelled as a natural number: the fixed-width `YYYY-MM-DD HH:MM:SS` strings
compare lexicographically exactly as the corresponding numbers do.  The
clock has one-second granularity, so consecutive inserts may carry equal
timestamps. -/
structure Row where
  kata : String
  arti : String
  inserted_at : Nat
deriving Repr, DecidableEq

/-- The `memory` table, in rowid (insertion) order. -/
abbrev Store := List Row

/-- The ASCII single-quote character that the Python f-strings place around
the word in the user-facing messages. -/
def squote : String := String.singleton (Char.ofNat 39)

/-- Python `word.lower()`, modelled character-wise.  (Both this model and
the program's actual inputs only exercise ASCII case folding.) -/
def pyLower (s : String) : String := ⟨s.data.map Char.toLower⟩

/-- `f_memory_update` (src/app.py lines 217-237).  It runs
`SELECT 1 FROM memory WHERE kata = ?` with the parameter `word.lower()`
(SQLite `=` on TEXT uses the case-sensitive BINARY collation), and when no
row matches it runs `INSERT INTO memory (kata, arti) VALUES (?, ?)` with
the ORIGINAL `word`; the `inserted_at` column takes its `datetime('now')`
default, passed here as `now`.  Returns the updated table and the message
the tool reports. -/
def f_memory_update (db : Store) (now : Nat) (word meaning : String) :
    Store × String :=
  if db.any (fun r => r.kata == pyLower word) then
    (db, "Kata " ++ squote ++ word ++ squote ++
      " sudah ada di database, tidak ditambahkan ulang.")
  else
    (db ++ [⟨word, meaning, now⟩],
      "Berhasil menambahkan " ++ squote ++ word ++ squote ++
        " (" ++ meaning ++ ") ke kosakata Anda")

/-- SQLite `LIMIT n` semantics: a negative limit places no bound on the
number of rows returned; otherwise at most `n` rows are returned. -/
def sqlLimit (n : Int) (rows : List Row) : List Row :=
  if n < 0 then rows else rows.take n.toNat

/-- The rows produced by
`SELECT kata, arti FROM memory ORDER BY RANDOM() LIMIT ?`:
`shuffled` is the table reordered by `RANDOM()` (an arbitrary permutation
of the store, supplied as a parameter because the selection is unseeded),
then the `LIMIT` is applied. -/
def queryRows (shuffled : List Row) (rows_query : Int) : List Row :=
  sqlLimit rows_query shuffled

/-- One bullet of `f_memory_query` output: `f"- {w} ({m})"`. -/
def formatRow (r : Row) : String :=
  "- " ++ r.kata ++ " (" ++ r.arti ++ ")"

/-- Python `"\n".join(strings)`. -/
def joinLines : List String → String
  | [] => ""
  | [s] => s
  | s :: rest => s ++ "\n" ++ joinLines rest

/-- `f_memory_query` (src/app.py lines 239-253): fetches up to `rows_query`
randomly ordered rows; when the result set is empty it returns the fixed
message `"Database kosong."`, otherwise the bulleted list under its
header. -/
def f_memory_query (shuffled : List Row) (rows_query : Int) : String :=
  let results := queryRows shuffled rows_query
  if results.isEmpty then
    "Database kosong."
  else
    "Kosakata acak yang tersimpan:\n" ++ joinLines (results.map formatRow)

/-- The comparison realising `ORDER BY inserted_at DESC`:
`recentOrder a b` holds when `a` may precede `b` in the output. -/
def recentOrder (a b : Row) : Prop :=
  b.inserted_at ≤ a.inserted_at

instance : DecidableRel recentOrder := fun a b =>
  inferInstanceAs (Decidable (b.inserted_at ≤ a.inserted_at))

instance : IsTotal Row recentOrder :=
  ⟨fun a b => le_total b.inserted_at a.inserted_at⟩

instance : IsTrans Row recentOrder :=
  ⟨fun _ _ _ hab hbc => le_trans hbc hab⟩

/-- `get_recent_vocabulary` (src/app.py lines 292-299):
`SELECT kata, arti, inserted_at FROM memory ORDER BY inserted_at DESC
LIMIT ?`. -/
def get_recent_vocabulary (db : Store) (limit : Int) : List Row :=
  sqlLimit limit (db.insertionSort recentOrder)

/-- `get_vocabulary_count` (src/app.py lines 283-290):
`SELECT COUNT(*) FROM memory`. -/
def get_vocabulary_count (db : Store) : Nat :=
  db.length

/-- `delete_vocabulary` (src/app.py lines 305-312):
`DELETE FROM memory WHERE kata = ?` with the word exactly as given (BINARY
collation, hence case-sensitive), then the success message. -/
def delete_vocabulary (db : Store) (word : String) : Store × String :=
  (db.filter (fun r => r.kata != word),
    "Kata " ++ squote ++ word ++ squote ++ " berhasil dihapus")

/-- A tool call produced by the model (src/app.py lines 476-478): its
`name`, its correlation `id`, and oracles for the two effectful steps run
inside the `try` block: `argsOk` is the outcome of
`json.loads(call["args"])` (an `.error` is a raised exception rendered as
its message), and `exec` is the outcome of `<tool>.invoke(args)` when the
name is one of the three registered tools. -/
instance {ε α : Type} [DecidableEq ε] [DecidableEq α] :
    DecidableEq (Except ε α) := fun a b =>
  match a, b with
  | .ok x, .ok y =>
    if h : x = y then .isTrue (congrArg Except.ok h)
    else .isFalse (fun hc => h (Except.ok.inj hc))
  | .error x, .error y =>
    if h : x = y then .isTrue (congrArg Except.error h)
    else .isFalse (fun hc => h (Except.error.inj hc))
  | .ok _, .error _ => .isFalse (fun hc => Except.noConfusion hc)
  | .error _, .ok _ => .isFalse (fun hc => Except.noConfusion hc)

structure ToolCall where
  name : String
  id : String
  argsOk : Except String Unit
  exec : Except String String
deriving Repr, DecidableEq

/-- The three tool names the dispatch switch recognises
(src/app.py lines 483-488). -/
def knownTools : List String :=
  ["f_memory_update", "f_memory_query", "f_lookup_dictionary"]

/-- A message of the conversation history (`st.session_state.messages`):
`SystemMessage`, `HumanMessage`, `AIMessage` (with its `tool_calls` list)
or `ToolMessage` (with its `tool_call_id`). -/
inductive Msg where
  | system (content : String)
  | user (content : String)
  | assistant (content : String) (tool_calls : List ToolCall)
  | toolResult (content : String) (tool_call_id : String)
deriving Repr, DecidableEq

/-- Whether a message is a `SystemMessage`. -/
def Msg.isSystem : Msg → Bool
  | .system _ => true
  | _ => false

/-- `f"Error saat menjalankan tool {tool_name}: {e}"`
(src/app.py line 495). -/
def errorText (name e : String) : String :=
  "Error saat menjalankan tool " ++ name ++ ": " ++ e

/-- `f"Tool tidak dikenal: {tool_name}"` (src/app.py line 490). -/
def unknownText (name : String) : String :=
  "Tool tidak dikenal: " ++ name

/-- One iteration of the `for call in ai_msg.tool_calls` loop
(src/app.py lines 476-496): parse the arguments, dispatch on the name
(unknown names yield the literal fallback string, no invocation), and
catch any exception of the iteration as that call's error result.  Every
branch appends exactly one `ToolMessage` carrying the call's id. -/
def runToolCall (call : ToolCall) : Msg :=
  match call.argsOk with
  | .error e => .toolResult (errorText call.name e) call.id
  | .ok _ =>
    if knownTools.contains call.name then
      match call.exec with
      | .ok r => .toolResult r call.id
      | .error e => .toolResult (errorText call.name e) call.id
    else
      .toolResult (unknownText call.name) call.id

/-- The two language-model round trips of one chat turn, treated as an
opaque service boundary: the first response (`ai_msg`: content plus tool
calls) and the integrating second response (`final_response`), which is
requested only when the first carried tool calls. -/
structure LlmTurn where
  ai_content : String
  ai_tool_calls : List ToolCall
  final_content : String
  final_tool_calls : List ToolCall
deriving Repr, DecidableEq

/-- `handle_chat_input` (src/app.py lines 462-509) acting on the history:
append the user's message and `ai_msg`; when `ai_msg.tool_calls` is
non-empty, run every call in order, extend the history with the collected
tool results, and append the integrating `final_response`; otherwise
nothing further is appended. -/
def handle_chat_input (history : List Msg) (prompt : String)
    (llm : LlmTurn) : List Msg :=
  let h1 := history ++
    [.user prompt, .assistant llm.ai_content llm.ai_tool_calls]
  if llm.ai_tool_calls.isEmpty then
    h1
  else
    h1 ++ llm.ai_tool_calls.map runToolCall ++
      [.assistant llm.final_content llm.final_tool_calls]

/-- The first line of the `SYSTEM_PROMPT` constant (src/app.py lines
154-170).  Only the message's role matters to the claims, so the prompt
text is abridged to its opening sentence. -/
def SYSTEM_PROMPT : String :=
  "You are LexiAI, a personal AI language learning assistant designed to help users master Japanese."

/-- The assistant greeting placed after the system prompt at
initialisation (src/app.py lines 442-449), abridged to its first line. -/
def greeting : String :=
  "Halo! Saya LexiAI, asisten belajar bahasa Jepang pribadi Anda."

/-- The initial `st.session_state.messages` (src/app.py lines 439-450 and
339-350): one `SystemMessage` followed by one `AIMessage`. -/
def initMessages : List Msg :=
  [.system SYSTEM_PROMPT, .assistant greeting []]

/-- The canned user message `handle_random_vocabulary` appends
(src/app.py line 353). -/
def randomPrompt : String :=
  "Tampilkan 5 kosakata acak yang sudah saya pelajari"

/-- `handle_random_vocabulary` (src/app.py lines 329-354) acting on an
existing session: invoke `f_memory_query` with `rows_query = 5` on the
randomly ordered store and append one user and one assistant message.
(When no session exists it first creates `initMessages`, which the
reachability relation covers separately.) -/
def handle_random_vocabulary (history : List Msg) (shuffled : List Row) :
    List Msg :=
  history ++
    [.user randomPrompt,
     .assistant ("**🎲 Kosakata Acak dari Database Anda:**\n\n" ++
       f_memory_query shuffled 5) []]

/-- The conversation-history states reachable in a session: the initial
history, and anything obtained from a reachable history by a chat turn or
by the random-vocabulary shortcut. -/
inductive Reachable : List Msg → Prop
  | init : Reachable initMessages
  | chat (h : List Msg) (prompt : String) (llm : LlmTurn) :
      Reachable h → Reachable (handle_chat_input h prompt llm)
  | randomVocab (h : List Msg) (shuffled : List Row) :
      Reachable h → Reachable (handle_random_vocabulary h shuffled)

/-! ## Concrete rows used by witnesses and counterexamples -/

/-- A sample stored row. -/
def rNeko : Row := ⟨"neko", "kucing", 1⟩

/-- Another sample stored row. -/
def rSakura : Row := ⟨"sakura", "bunga ceri", 2⟩

/-- Two successful inserts carried out within the same clock second
(`datetime('now')` has one-second granularity, so both rows receive the
same `inserted_at` value). -/
def dbSameSecond : Store :=
  (f_memory_update (f_memory_update [] 5 "neko" "kucing").fst 5
    "inu" "anjing").fst

/-! ## Claims about the vocabulary store -/

/-- C1: the claim says inserting the same word twice (in any case variant)
never produces two rows.  The code violates it: the existence check
compares the stored `kata` (kept in original case) against the LOWERCASED
input under SQLite's case-sensitive BINARY collation, so inserting "Inu"
twice stores two rows — the check looks for "inu", which is never what got
stored.  This theorem evaluates the failing input: after the first insert
of "Inu" the table has one row, and the second insert of the very same
word inserts again (row count 2) and returns the SUCCESS message instead
of the already-exists message. -/
theorem c1_duplicate_insert_evaluated :
    (f_memory_update [] 0 "Inu" "anjing").fst.length = 1 ∧
    (f_memory_update (f_memory_update [] 0 "Inu" "anjing").fst 1 "Inu"
        "anjing").fst.length = 2 ∧
    (f_memory_update (f_memory_update [] 0 "Inu" "anjing").fst 1 "Inu"
        "anjing").snd =
      "Berhasil menambahkan " ++ squote ++ "Inu" ++ squote ++
        " (anjing) ke kosakata Anda" := by decide

/-- C4 counterexample: the claim says a successful insert stores the word
case-normalized.  Inserting "Inu" into the empty store in fact stores the
key "Inu" verbatim, which differs from its case-normalized form "inu". -/
theorem c4_original_case_counterexample :
    (f_memory_update [] 0 "Inu" "anjing").fst = [⟨"Inu", "anjing", 0⟩] ∧
    ("Inu" : String) ≠ pyLower "Inu" := by decide

/-- C4 amended: a successful insert stores the word exactly as given
(original case); only the pre-insert existence check uses the lowercased
form of the input. -/
theorem c4_insert_keeps_original_case (db : Store) (now : Nat)
    (word meaning : String)
    (habs : db.any (fun r => r.kata == pyLower word) = false) :
    (f_memory_update db now word meaning).fst =
      db ++ [⟨word, meaning, now⟩] := by
  simp [f_memory_update, habs]

/-- Witness for C4's amended theorem at the concrete input "Inu". -/
theorem c4_insert_keeps_original_case_witness :
    ([] : Store).any (fun r => r.kata == pyLower "Inu") = false ∧
    (f_memory_update [] 0 "Inu" "anjing").fst =
      [] ++ [⟨"Inu", "anjing", 0⟩] :=
  ⟨by decide, c4_insert_keeps_original_case [] 0 "Inu" "anjing" (by decide)⟩

/-- C5: `delete_vocabulary` removes exactly the rows whose stored key
equals the argument byte-for-byte (case-sensitively); in particular every
row whose key differs from the argument only in case survives. -/
theorem c5_delete_exact_case (db : Store) (word : String) :
    (∀ r, r ∈ (delete_vocabulary db word).fst ↔
      (r ∈ db ∧ r.kata ≠ word)) ∧
    (∀ r, r ∈ db → pyLower r.kata = pyLower word → r.kata ≠ word →
      r ∈ (delete_vocabulary db word).fst) := by
  have h1 : ∀ r, r ∈ (delete_vocabulary db word).fst ↔
      (r ∈ db ∧ r.kata ≠ word) := by
    intro r
    simp [delete_vocabulary, List.mem_filter, bne_iff_ne]
  exact ⟨h1, fun r hm _ hne => (h1 r).2 ⟨hm, hne⟩⟩

/-- C6 counterexample: the claim quantifies over every `n`, but a negative
`rows_query` reaches SQLite's "negative LIMIT means no limit" behaviour:
on a one-row store, `rows_query = -1` returns that row, so the result does
not have "at most n" entries. -/
theorem c6_negative_limit_counterexample :
    queryRows [rNeko] (-1) = [rNeko] ∧
    ¬ (((queryRows [rNeko] (-1)).length : Int) ≤ -1) := by decide

/-- C6 amended: for every non-negative `n` the query returns at most `n`
entries, each entry returned is drawn from the store (a negative `n`
returns every row, per SQLite LIMIT semantics); an empty store always
yields the fixed message "Database kosong.", and a non-empty result is the
bulleted list under its header. -/
theorem c6_query_bounds (db shuffled : Store) (n : Int)
    (hperm : shuffled.Perm db) :
    (0 ≤ n → (queryRows shuffled n).length ≤ n.toNat) ∧
    (∀ r ∈ queryRows shuffled n, r ∈ db) ∧
    (db = [] → f_memory_query shuffled n = "Database kosong.") ∧
    (queryRows shuffled n ≠ [] →
      f_memory_query shuffled n =
        "Kosakata acak yang tersimpan:\n" ++
          joinLines ((queryRows shuffled n).map formatRow)) := by
  refine ⟨?_, ?_, ?_, ?_⟩
  · intro hn
    simp only [queryRows, sqlLimit, if_neg (not_lt.2 hn)]
    exact List.length_take_le _ _
  · intro r hr
    refine hperm.subset ?_
    by_cases hn : n < 0
    · simpa [queryRows, sqlLimit, hn] using hr
    · simp only [queryRows, sqlLimit, if_neg hn] at hr
      exact List.mem_of_mem_take hr
  · intro hdb
    subst hdb
    have hsh : shuffled = [] := hperm.eq_nil
    subst hsh
    simp only [f_memory_query, queryRows, sqlLimit]
    split <;> simp
  · intro hne
    simp only [f_memory_query]
    rw [if_neg (by simpa [List.isEmpty_iff] using hne)]

/-- Witness for C6's amended theorem on a concrete two-row store with a
concrete shuffle and `n = 1`. -/
theorem c6_query_bounds_witness :
    ([rSakura, rNeko] : Store).Perm [rNeko, rSakura] ∧
    ((0 ≤ (1 : Int) →
        (queryRows [rSakura, rNeko] 1).length ≤ (1 : Int).toNat) ∧
     (∀ r ∈ queryRows [rSakura, rNeko] 1, r ∈ [rNeko, rSakura]) ∧
     (([rNeko, rSakura] : Store) = [] →
        f_memory_query [rSakura, rNeko] 1 = "Database kosong.") ∧
     (queryRows [rSakura, rNeko] 1 ≠ [] →
        f_memory_query [rSakura, rNeko] 1 =
          "Kosakata acak yang tersimpan:\n" ++
            joinLines ((queryRows [rSakura, rNeko] 1).map formatRow))) :=
  ⟨by decide, c6_query_bounds [rNeko, rSakura] [rSakura, rNeko] 1 (by decide)⟩

/-- C7 counterexample: the claim demands STRICTLY descending insertion
times for any sequence of inserts, but `datetime('now')` is second-
granular: two inserts in the same second carry equal timestamps, and the
returned list then fails strict descent. -/
theorem c7_strict_descent_counterexample :
    (get_recent_vocabulary dbSameSecond 10).map Row.inserted_at = [5, 5] ∧
    ¬ List.Sorted (fun a b : Row => b.inserted_at < a.inserted_at)
      (get_recent_vocabulary dbSameSecond 10) := by decide

/-- C7 amended: `get_recent_vocabulary` output is sorted by insertion time
in non-increasing (descending) order — most recent first, with ties
possible when inserts share a timestamp. -/
theorem c7_sorted_descending (db : Store) (limit : Int) :
    List.Sorted (fun a b : Row => b.inserted_at ≤ a.inserted_at)
      (get_recent_vocabulary db limit) := by
  have hs : List.Sorted recentOrder (db.insertionSort recentOrder) :=
    List.sorted_insertionSort recentOrder db
  unfold get_recent_vocabulary sqlLimit
  split
  · exact hs
  · exact List.Pairwise.sublist (List.take_sublist _ _) hs

/-- C10: `rows_query = 0` always yields `LIMIT 0`, i.e. an empty result
set, so `f_memory_query` returns "Database kosong." on EVERY store —
including the non-empty one shown — hence the message signals an empty
result set, not an empty store. -/
theorem c10_zero_rows_message :
    (∀ shuffled : Store, f_memory_query shuffled 0 = "Database kosong.") ∧
    f_memory_query [rNeko] 0 = "Database kosong." ∧
    ([rNeko] : Store) ≠ [] := by
  refine ⟨fun shuffled => ?_, by decide, by decide⟩
  simp [f_memory_query, queryRows, sqlLimit]

/-! ## Claims about the dispatch loop -/

/-- Every iteration of the tool loop, whatever path it takes (argument
parse failure, known tool succeeding, known tool raising, unknown tool),
produces exactly one `ToolMessage` carrying the originating call's
correlation id. -/
theorem runToolCall_shape (c : ToolCall) :
    ∃ content, runToolCall c = Msg.toolResult content c.id := by
  obtain ⟨name, id, argsOk, exec⟩ := c
  cases argsOk with
  | error e => exact ⟨_, rfl⟩
  | ok u =>
    cases u
    by_cases hk : name ∈ knownTools
    · cases exec with
      | ok r => exact ⟨r, by simp [runToolCall, hk]⟩
      | error e => exact ⟨errorText name e, by simp [runToolCall, hk]⟩
    · exact ⟨unknownText name, by simp [runToolCall, hk]⟩

/-- A chat-turn history update always has the shape "old history plus a
tail of user/assistant/tool-result messages": the tail contains no system
message. -/
theorem handle_chat_input_append (history : List Msg) (prompt : String)
    (llm : LlmTurn) :
    ∃ tail, handle_chat_input history prompt llm = history ++ tail ∧
      tail.countP Msg.isSystem = 0 := by
  by_cases hemp : llm.ai_tool_calls.isEmpty
  · refine ⟨[Msg.user prompt,
      Msg.assistant llm.ai_content llm.ai_tool_calls], ?_, ?_⟩
    · simp [handle_chat_input, hemp]
    · simp [List.countP_cons, Msg.isSystem]
  · refine ⟨[Msg.user prompt,
        Msg.assistant llm.ai_content llm.ai_tool_calls] ++
        llm.ai_tool_calls.map runToolCall ++
        [Msg.assistant llm.final_content llm.final_tool_calls], ?_, ?_⟩
    · simp [handle_chat_input, hemp]
    · rw [List.countP_append, List.countP_append]
      have hmap : (llm.ai_tool_calls.map runToolCall).countP
          Msg.isSystem = 0 := by
        rw [List.countP_eq_zero]
        intro m hm
        obtain ⟨c, _, rfl⟩ := List.mem_map.1 hm
        obtain ⟨content, hc⟩ := runToolCall_shape c
        rw [hc]
        simp [Msg.isSystem]
      simp [hmap, List.countP_cons, Msg.isSystem]

/-- The random-vocabulary shortcut likewise appends only a user and an
assistant message. -/
theorem handle_random_vocabulary_append (history : List Msg)
    (shuffled : List Row) :
    ∃ tail, handle_random_vocabulary history shuffled = history ++ tail ∧
      tail.countP Msg.isSystem = 0 :=
  ⟨_, rfl, by simp [List.countP_cons, Msg.isSystem]⟩

/-- C2: a dispatch turn whose model response carries at least one tool
call appends, after the user and assistant messages, exactly one
tool-result message per call — in the order the calls were received, each
a `ToolMessage` tagged with that call's correlation id — followed by
exactly one final integrated assistant message. -/
theorem c2_results_in_order_then_final (history : List Msg)
    (prompt : String) (llm : LlmTurn) (hne : llm.ai_tool_calls ≠ []) :
    handle_chat_input history prompt llm =
      history ++
        [Msg.user prompt,
         Msg.assistant llm.ai_content llm.ai_tool_calls] ++
        llm.ai_tool_calls.map runToolCall ++
        [Msg.assistant llm.final_content llm.final_tool_calls] ∧
    (llm.ai_tool_calls.map runToolCall).length =
      llm.ai_tool_calls.length ∧
    ∀ c ∈ llm.ai_tool_calls, ∃ content,
      runToolCall c = Msg.toolResult content c.id := by
  have hemp : llm.ai_tool_calls.isEmpty = false := by
    simpa [List.isEmpty_iff] using hne
  exact ⟨by simp [handle_chat_input, hemp], by simp,
    fun c _ => runToolCall_shape c⟩

/-- C3: when executing one tool call raises an exception, that exception
is caught individually and becomes that call's error-string tool result,
while the turn still runs every call (one result per call, in order) and
still appends the final assistant message. -/
theorem c3_tool_error_isolated (history : List Msg) (prompt : String)
    (llm : LlmTurn) (c : ToolCall) (e : String)
    (hc : c ∈ llm.ai_tool_calls)
    (hargs : c.argsOk = .ok ())
    (hknown : knownTools.contains c.name = true)
    (hexec : c.exec = .error e) :
    runToolCall c = Msg.toolResult (errorText c.name e) c.id ∧
    handle_chat_input history prompt llm =
      history ++
        [Msg.user prompt,
         Msg.assistant llm.ai_content llm.ai_tool_calls] ++
        llm.ai_tool_calls.map runToolCall ++
        [Msg.assistant llm.final_content llm.final_tool_calls] ∧
    (llm.ai_tool_calls.map runToolCall).length =
      llm.ai_tool_calls.length := by
  have hemp : llm.ai_tool_calls.isEmpty = false := by
    simpa [List.isEmpty_iff] using List.ne_nil_of_mem hc
  have hk : c.name ∈ knownTools := by simpa using hknown
  refine ⟨?_, by simp [handle_chat_input, hemp], by simp⟩
  simp [runToolCall, hargs, hk, hexec]

/-- C8: a tool call whose name is none of the three registered tools
yields the literal fallback string as its tool result, and the loop keeps
processing (one result per call, final message still appended). -/
theorem c8_unknown_tool_fallback (history : List Msg) (prompt : String)
    (llm : LlmTurn) (c : ToolCall)
    (hc : c ∈ llm.ai_tool_calls)
    (hargs : c.argsOk = .ok ())
    (hunk : knownTools.contains c.name = false) :
    runToolCall c = Msg.toolResult (unknownText c.name) c.id ∧
    handle_chat_input history prompt llm =
      history ++
        [Msg.user prompt,
         Msg.assistant llm.ai_content llm.ai_tool_calls] ++
        llm.ai_tool_calls.map runToolCall ++
        [Msg.assistant llm.final_content llm.final_tool_calls] ∧
    (llm.ai_tool_calls.map runToolCall).length =
      llm.ai_tool_calls.length := by
  have hemp : llm.ai_tool_calls.isEmpty = false := by
    simpa [List.isEmpty_iff] using List.ne_nil_of_mem hc
  have hk : c.name ∉ knownTools := by simpa using hunk
  refine ⟨?_, by simp [handle_chat_input, hemp], by simp⟩
  simp [runToolCall, hargs, hk]

/-- C9: every reachable conversation history starts with the system
message in first position and contains exactly one system message — the
dispatch loop and the random-vocabulary shortcut append only user,
assistant and tool-result messages. -/
theorem c9_single_system_message (h : List Msg) (hr : Reachable h) :
    h.head? = some (Msg.system SYSTEM_PROMPT) ∧
    h.countP Msg.isSystem = 1 := by
  induction hr with
  | init => exact ⟨rfl, by simp [initMessages, List.countP_cons, Msg.isSystem]⟩
  | chat h p llm hr ih =>
    obtain ⟨ihead, icount⟩ := ih
    obtain ⟨tail, heq, hc0⟩ := handle_chat_input_append h p llm
    rw [heq]
    constructor
    · cases h with
      | nil => simp at ihead
      | cons x t => simpa using ihead
    · rw [List.countP_append, hc0, icount]
  | randomVocab h shuffled hr ih =>
    obtain ⟨ihead, icount⟩ := ih
    obtain ⟨tail, heq, hc0⟩ := handle_random_vocabulary_append h shuffled
    rw [heq]
    constructor
    · cases h with
      | nil => simp at ihead
      | cons x t => simpa using ihead
    · rw [List.countP_append, hc0, icount]

/-- A concrete tool call whose execution succeeds. -/
def demoCallQuery : ToolCall :=
  ⟨"f_memory_query", "call-1", .ok (), .ok "Database kosong."⟩

/-- A concrete tool call whose execution raises an exception. -/
def demoCallErr : ToolCall :=
  ⟨"f_memory_update", "call-2", .ok (), .error "no such table: memory"⟩

/-- A concrete tool call with an unregistered name. -/
def demoCallUnknown : ToolCall :=
  ⟨"f_translate", "call-3", .ok (), .ok "unused"⟩

/-- A concrete model turn requesting all three demo calls. -/
def demoTurn : LlmTurn :=
  ⟨"Saya akan menjalankan tool.",
   [demoCallQuery, demoCallErr, demoCallUnknown],
   "Berikut hasilnya.", []⟩

/-- Witness for C2 on the concrete three-call turn. -/
theorem c2_results_in_order_then_final_witness :
    demoTurn.ai_tool_calls ≠ [] ∧
    (handle_chat_input initMessages "Halo" demoTurn =
      initMessages ++
        [Msg.user "Halo",
         Msg.assistant demoTurn.ai_content demoTurn.ai_tool_calls] ++
        demoTurn.ai_tool_calls.map runToolCall ++
        [Msg.assistant demoTurn.final_content demoTurn.final_tool_calls] ∧
     (demoTurn.ai_tool_calls.map runToolCall).length =
       demoTurn.ai_tool_calls.length ∧
     ∀ c ∈ demoTurn.ai_tool_calls, ∃ content,
       runToolCall c = Msg.toolResult content c.id) :=
  ⟨by decide,
   c2_results_in_order_then_final initMessages "Halo" demoTurn (by decide)⟩

/-- Witness for C3 on the concrete turn: the second call raises and is
recorded as its own error result. -/
theorem c3_tool_error_isolated_witness :
    demoCallErr ∈ demoTurn.ai_tool_calls ∧
    (runToolCall demoCallErr =
      Msg.toolResult (errorText demoCallErr.name "no such table: memory")
        demoCallErr.id ∧
     handle_chat_input initMessages "Tambahkan kata inu" demoTurn =
       initMessages ++
         [Msg.user "Tambahkan kata inu",
          Msg.assistant demoTurn.ai_content demoTurn.ai_tool_calls] ++
         demoTurn.ai_tool_calls.map runToolCall ++
         [Msg.assistant demoTurn.final_content demoTurn.final_tool_calls] ∧
     (demoTurn.ai_tool_calls.map runToolCall).length =
       demoTurn.ai_tool_calls.length) :=
  ⟨by decide,
   c3_tool_error_isolated initMessages "Tambahkan kata inu" demoTurn
     demoCallErr "no such table: memory" (by decide) rfl (by decide) rfl⟩

/-- Witness for C8 on the concrete turn: the third call's name is
unregistered and yields the fallback string. -/
theorem c8_unknown_tool_fallback_witness :
    demoCallUnknown ∈ demoTurn.ai_tool_calls ∧
    (runToolCall demoCallUnknown =
      Msg.toolResult (unknownText demoCallUnknown.name)
        demoCallUnknown.id ∧
     handle_chat_input initMessages "Apa arti asagohan?" demoTurn =
       initMessages ++
         [Msg.user "Apa arti asagohan?",
          Msg.assistant demoTurn.ai_content demoTurn.ai_tool_calls] ++
         demoTurn.ai_tool_calls.map runToolCall ++
         [Msg.assistant demoTurn.final_content demoTurn.final_tool_calls] ∧
     (demoTurn.ai_tool_calls.map runToolCall).length =
       demoTurn.ai_tool_calls.length) :=
  ⟨by decide,
   c8_unknown_tool_fallback initMessages "Apa arti asagohan?" demoTurn
     demoCallUnknown (by decide) rfl (by decide)⟩

/-- Witness for C9 at the initial history. -/
theorem c9_single_system_message_witness :
    initMessages.head? = some (Msg.system SYSTEM_PROMPT) ∧
    initMessages.countP Msg.isSystem = 1 :=
  c9_single_system_message initMessages Reachable.init

end LexiAI
